import Mathlib

/-!
Shallow embedding of the FreeNAS CLI shell engine (`src/cli/src/repl.py`):
the line tokenizer, the typed variable store, configuration reading, plugin
loading, namespace attachment, and the dispatch loop, together with theorems
settling the specification's claims about them.
-/

namespace FreenasCli

/-! ## Python string helpers -/

/-- Python `str.strip()` whitespace set: space, tab, newline, carriage
return, vertical tab, form feed. -/
def pyIsSpace (c : Char) : Bool :=
  c = ' ' || c = '\t' || c = '\n' || c = '\r' || c = '\x0b' || c = '\x0c'

/-- Python `str.strip()`: remove leading and trailing whitespace. -/
def pyStrip (s : String) : String :=
  String.mk (((s.data.dropWhile pyIsSpace).reverse.dropWhile pyIsSpace).reverse)

/-- Python `s[1:-1]`: drop the first and last character. -/
def pySlice1m1 (s : String) : String :=
  String.mk ((s.data.drop 1).dropLast)

/-- Digits of a decimal numeral folded into a natural number. -/
def digitsToNat (ds : List Char) : Nat :=
  ds.foldl (fun acc c => 10 * acc + (c.toNat - '0'.toNat)) 0

/-- Python `int(s)` on a string: strip whitespace, optional sign, then a
nonempty run of decimal digits; anything else raises `ValueError`
(modelled as `none`). -/
def pyInt (s : String) : Option Int :=
  let t := (pyStrip s).data
  match t with
  | '-' :: ds =>
      if ds ≠ [] ∧ ds.all Char.isDigit then some (-(digitsToNat ds : Int)) else none
  | '+' :: ds =>
      if ds ≠ [] ∧ ds.all Char.isDigit then some (digitsToNat ds : Int) else none
  | ds =>
      if ds ≠ [] ∧ ds.all Char.isDigit then some (digitsToNat ds : Int) else none

/-! ## Tokenizer (`MainLoop.tokenize`, repl.py lines 236-257)

`shlex.split(line, posix=False)` word-splits the line with `whitespace_split`
on: tokens are separated by whitespace; a quote character (`"` or `'`) at the
start of a token opens a quoted run that ends at the next identical quote,
both quotes kept in the token, and the closing quote ends the token; a quote
met in the middle of a token is an ordinary character; end of input inside a
quoted run raises `ValueError` ("No closing quotation"). -/

/-- `shlex` whitespace set (`shlex.whitespace = ' \t\r\n'`). -/
def shlexIsSpace (c : Char) : Bool :=
  c = ' ' || c = '\t' || c = '\r' || c = '\n'

/-- `shlex` quote characters (`shlex.quotes`). -/
def shlexIsQuote (c : Char) : Bool :=
  c = '\'' || c = '"'

/-- Lexer state of `shlex.read_token`: between tokens, inside a word, or
inside a quoted run opened by the given quote character. -/
inductive LexSt where
  | ws : LexSt
  | word : LexSt
  | quo : Char → LexSt
deriving Repr, DecidableEq

/-- One pass of `shlex` (non-posix, `whitespace_split`) over the characters.
`tok` is the current token reversed, `acc` the emitted tokens reversed.
`none` models the `ValueError` raised on a missing closing quote. -/
def shlexSplitAux : List Char → LexSt → List Char → List String → Option (List String)
  | [], LexSt.quo _, _, _ => none
  | [], LexSt.ws, _, acc => some acc.reverse
  | [], LexSt.word, tok, acc => some (String.mk tok.reverse :: acc).reverse
  | c :: cs, LexSt.ws, _, acc =>
      if shlexIsSpace c then shlexSplitAux cs LexSt.ws [] acc
      else if shlexIsQuote c then shlexSplitAux cs (LexSt.quo c) [c] acc
      else shlexSplitAux cs LexSt.word [c] acc
  | c :: cs, LexSt.word, tok, acc =>
      if shlexIsSpace c then shlexSplitAux cs LexSt.ws [] (String.mk tok.reverse :: acc)
      else shlexSplitAux cs LexSt.word (c :: tok) acc
  | c :: cs, LexSt.quo q, tok, acc =>
      if c = q then shlexSplitAux cs LexSt.ws [] (String.mk (c :: tok).reverse :: acc)
      else shlexSplitAux cs (LexSt.quo q) (c :: tok) acc

/-- `shlex.split(line, posix=False)`. -/
def shlexSplit (line : String) : Option (List String) :=
  shlexSplitAux line.data LexSt.ws [] []

/-- The two exceptions `MainLoop.tokenize` can raise: `ValueError` from
`shlex.split` on an unbalanced quote, and `IndexError` from indexing into an
empty string. -/
inductive TokErr where
  | noClosingQuote : TokErr
  | indexError : TokErr
deriving Repr, DecidableEq

/-- Python `t[0] == '"' and t[-1] == '"'` on a nonempty string. -/
def isWrappedInQuotes (s : String) : Bool :=
  match s.data with
  | [] => false
  | c :: cs => c = '"' && List.getLast (c :: cs) (by simp) = '"'

/-- Python `t.partition('=')` restricted to head and tail: the part before
the first `=` and the part after it (tail empty when `=` is absent). -/
def pyPartitionEq (s : String) : String × String :=
  go s.data []
where
  go : List Char → List Char → String × String
    | [], accRev => (String.mk accRev.reverse, "")
    | '=' :: rest, accRev => (String.mk accRev.reverse, String.mk rest)
    | c :: rest, accRev => go rest (c :: accRev)

/-- Python `s.split('/')`: cut the string at every `/`, keeping empty
pieces (so a leading `/` yields a leading empty segment); the result is
never the empty list. -/
def pySplitSlash (s : String) : List String :=
  go s.data []
where
  go : List Char → List Char → List String
    | [], acc => [String.mk acc.reverse]
    | '/' :: rest, acc => String.mk acc.reverse :: go rest []
    | c :: rest, acc => go rest (c :: acc)

/-- Python dict assignment `m[k] = v`: overwrite the binding if the key is
present, else append it. -/
def dictInsert {α : Type} (m : List (String × α)) (k : String) (v : α) :
    List (String × α) :=
  if m.any (fun p => p.1 == k) then
    m.map (fun p => if p.1 == k then (k, v) else p)
  else
    m ++ [(k, v)]

/-- Python dict lookup `m[k]` as an `Option`. -/
def dictFind {α : Type} (m : List (String × α)) (k : String) : Option α :=
  (m.find? (fun p => p.1 == k)).map (fun p => p.2)

/-- The `for t in tokens` loop body of `MainLoop.tokenize`: a token wrapped
in double quotes is unquoted and appended to the positionals; a token
containing `=` is split at its first `=`, the value unquoted when wrapped in
double quotes, and stored in the keyword dict; any other token is appended
to the positionals. Indexing `value[0]` on an empty value (token `key=`)
raises `IndexError`. `args` is accumulated reversed. -/
def processTokens : List String → List String → List (String × String) →
    Except TokErr (List String × List (String × String))
  | [], args, kwargs => Except.ok (args.reverse, kwargs)
  | t :: rest, args, kwargs =>
      if t.data = [] then Except.error TokErr.indexError
      else if isWrappedInQuotes t then
        processTokens rest (pySlice1m1 t :: args) kwargs
      else if t.data.contains '=' then
        let kv := pyPartitionEq t
        if kv.2.data = [] then Except.error TokErr.indexError
        else
          let value := if isWrappedInQuotes kv.2 then pySlice1m1 kv.2 else kv.2
          processTokens rest args (dictInsert kwargs kv.1 value)
      else
        processTokens rest (t :: args) kwargs

/-- `MainLoop.tokenize(line)`: shlex word-split, then classify each token
into positionals and keyword pairs. -/
def tokenize (line : String) : Except TokErr (List String × List (String × String)) :=
  match shlexSplit line with
  | none => Except.error TokErr.noClosingQuote
  | some toks => processTokens toks [] []

/-- All tokens are nonempty and every unquoted token containing `=` has a
nonempty value after its first `=`. -/
def goodToks (toks : List String) : Prop :=
  ∀ t ∈ toks, t.data ≠ [] ∧
    (isWrappedInQuotes t = false → t.data.contains '=' = true →
      (pyPartitionEq t).2.data ≠ [])

instance (toks : List String) : Decidable (goodToks toks) := by
  unfold goodToks
  infer_instance

/-! ## VariableStore (repl.py lines 64-106) -/

/-- The declared type of a session variable (`int`, `str` or `bool` in the
source). -/
inductive VarType where
  | int : VarType
  | str : VarType
  | bool : VarType
deriving Repr, DecidableEq

/-- A Python value held by a session variable. -/
inductive VarValue where
  | vInt : Int → VarValue
  | vStr : String → VarValue
  | vBool : Bool → VarValue
deriving Repr, DecidableEq

/-- The exceptions raised inside `VariableStore`: `ValueError` from the
`int()` coercion in `Variable.set`, `ValueError` for a value outside the
declared choices, and `KeyError` from `self.variables[name]`. -/
inductive StoreErr where
  | valueErrorInt : StoreErr
  | valueErrorChoice : StoreErr
  | keyError : StoreErr
deriving Repr, DecidableEq

/-- `VariableStore.Variable`: default value, declared type, optional choice
list, current value. -/
structure Variable where
  default : VarValue
  type : VarType
  choices : Option (List VarValue)
  value : VarValue
deriving Repr, DecidableEq

/-- `Variable.set(value)` (repl.py lines 72-80): when the declared type is
`int`, coerce the string through `int()` (re-raising the `ValueError` on
failure); then, if a choice list is declared, raise `ValueError` unless the
coerced value is a member.  As in the source, the method never assigns
`self.value`: on success the variable is returned unchanged. -/
def Variable.set (v : Variable) (value : String) : Except StoreErr Variable :=
  match (if v.type = VarType.int then
           match pyInt value with
           | none => Except.error StoreErr.valueErrorInt
           | some n => Except.ok (VarValue.vInt n)
         else Except.ok (VarValue.vStr value) :
         Except StoreErr VarValue) with
  | Except.error e => Except.error e
  | Except.ok coerced =>
      match v.choices with
      | some cs =>
          if coerced ∈ cs then Except.ok v else Except.error StoreErr.valueErrorChoice
      | none => Except.ok v

/-- `VariableStore`: a fixed mapping from names to variables (the source
field `variables`; that word is reserved in Lean). -/
structure VariableStore where
  vars : List (String × Variable)
deriving Repr, DecidableEq

/-- The mapping built by `VariableStore.__init__` (repl.py lines 82-90);
`lang` stands for `os.environ['LANG']`. -/
def VariableStore.init (lang : String) : VariableStore :=
  ⟨[("output-format",
      ⟨VarValue.vStr "ascii", VarType.str,
        some [VarValue.vStr "ascii", VarValue.vStr "json"], VarValue.vStr "ascii"⟩),
    ("datetime-format",
      ⟨VarValue.vStr "natural", VarType.str, none, VarValue.vStr "natural"⟩),
    ("language", ⟨VarValue.vStr lang, VarType.str, none, VarValue.vStr lang⟩),
    ("prompt",
      ⟨VarValue.vStr "{host}:{path}>", VarType.str, none, VarValue.vStr "{host}:{path}>"⟩),
    ("timeout", ⟨VarValue.vInt 10, VarType.int, none, VarValue.vInt 10⟩),
    ("show-events", ⟨VarValue.vBool true, VarType.bool, none, VarValue.vBool true⟩)]⟩

/-- Dict lookup `self.variables[name]`. -/
def VariableStore.find (s : VariableStore) (name : String) : Option Variable :=
  dictFind s.vars name

/-- `VariableStore.get(name)` (repl.py lines 98-99): `KeyError` when the
name is absent, else the variable's current value. -/
def VariableStore.get (s : VariableStore) (name : String) : Except StoreErr VarValue :=
  match s.find name with
  | none => Except.error StoreErr.keyError
  | some v => Except.ok v.value

/-- `VariableStore.set(name, value)` (repl.py lines 105-106): look the
variable up (`KeyError` when absent) and delegate to `Variable.set`.  The
store that results from a successful call carries the variable returned by
`Variable.set` (which, as in the source, is unchanged). -/
def VariableStore.set (s : VariableStore) (name value : String) :
    Except StoreErr VariableStore :=
  match s.find name with
  | none => Except.error StoreErr.keyError
  | some v =>
      match v.set value with
      | Except.error e => Except.error e
      | Except.ok v2 =>
          Except.ok ⟨s.vars.map (fun p => if p.1 == name then (name, v2) else p)⟩

/-! ## Configuration reading (`Context.read_config_file`, repl.py 131-148) -/

/-- Exceptions `read_config_file` can propagate: `IOError` from `open`,
`ValueError` from `json.load`. -/
inductive CfgErr where
  | ioError : CfgErr
  | valueError : CfgErr
deriving Repr, DecidableEq

/-- The `data['cli']['plugin-dirs']` entry of a parsed configuration:
either a value that is not a list, or a list of directory strings. -/
inductive CfgEntry where
  | notList : CfgEntry
  | listDirs : List String → CfgEntry
deriving Repr, DecidableEq

/-- A parsed configuration document, as far as `read_config_file` inspects
it: `cli = none` when the `'cli'` key is absent, `some none` when `'cli'`
has no `'plugin-dirs'` key, `some (some e)` otherwise. -/
structure CfgData where
  cli : Option (Option CfgEntry)
deriving Repr, DecidableEq

/-- A configuration file as seen through `open` + `json.load`: opening
fails, parsing fails, or a document is produced. -/
inductive ConfigFile where
  | openFail : ConfigFile
  | parseFail : ConfigFile
  | parsed : CfgData → ConfigFile
deriving Repr, DecidableEq

/-- `Context.read_config_file` (repl.py lines 131-148), acting on the
`plugin_dirs` list: an `IOError` or `ValueError` from open/parse is
re-raised by the `except` clause; a document without a `'cli'` key, without
a `'plugin-dirs'` key, or whose `'plugin-dirs'` is not a list leaves the
list unchanged; otherwise the directories are appended. -/
def read_config_file (pluginDirs : List String) (file : ConfigFile) :
    Except CfgErr (List String) :=
  match file with
  | ConfigFile.openFail => Except.error CfgErr.ioError
  | ConfigFile.parseFail => Except.error CfgErr.valueError
  | ConfigFile.parsed d =>
      match d.cli with
      | none => Except.ok pluginDirs
      | some none => Except.ok pluginDirs
      | some (some CfgEntry.notList) => Except.ok pluginDirs
      | some (some (CfgEntry.listDirs ds)) => Except.ok (pluginDirs ++ ds)

/-! ## Plugin loading (`Context.__try_load_plugin`, repl.py 164-172) -/

/-- Modelled from the spec: a loadable plugin unit optionally exposes an
`_init(context)` hook (spec §4.3, §6); executing the unit with
`imp.load_source` runs its top-level code, and namespace/command
registration happens only inside `_init`. -/
structure Plugin where
  hasInit : Bool
deriving Repr, DecidableEq

/-- The plugin-relevant part of `Context`: the `path → plugin` mapping is
tracked as the list of loaded paths, and the side effects of loading are
counted — `execs` counts executions of the unit (`imp.load_source`),
`initCalls` counts invocations of the `_init` hook. -/
structure PluginState where
  plugins : List String
  execs : Nat
  initCalls : Nat
deriving Repr, DecidableEq

/-- `Context.__try_load_plugin(path)` (repl.py lines 164-172): return at
once when the path is already in `self.plugins`; otherwise execute the unit
(`imp.load_source`) and, only when it has an `_init` attribute, invoke the
hook and record the plugin under its path. -/
def try_load_plugin (st : PluginState) (path : String) (unit : Plugin) : PluginState :=
  if st.plugins.contains path then st
  else
    if unit.hasInit then
      { plugins := st.plugins ++ [path],
        execs := st.execs + 1,
        initCalls := st.initCalls + 1 }
    else
      { st with execs := st.execs + 1 }

/-! ## Namespace tree and `Context.attach_namespace` (repl.py 177-188)

The `Namespace` class lives in the repository's `namespace` module, which is
not among the sources; its interface is modelled from the spec. -/

/-- Modelled from the spec: a namespace node exposes two lookups — child
namespaces (`namespaces()`, name → Namespace, unique names) and commands
(`commands()`, name → Command).  A command's only operation is
`run(context, args, kwargs)`; here it is characterised by whether that call
raises, which is all the dispatch loop observes. -/
inductive NS where
  | node : List (String × NS) → List (String × Bool) → NS

/-- The child-namespace map of a node (spec: `namespaces()`). -/
def NS.children : NS → List (String × NS)
  | NS.node cs _ => cs

/-- The command map of a node (spec: `commands()`); the `Bool` says whether
the command's `run` raises. -/
def NS.cmds : NS → List (String × Bool)
  | NS.node _ ks => ks

/-- Lookup of a child namespace by name, the first match of the
`for name, ns in ...namespaces().items()` loop (names are unique). -/
def NS.findChild (n : NS) (tok : String) : Option NS :=
  dictFind n.children tok

/-- Lookup of a command by name, the first match of the
`for name, cmd in ...commands().items()` loop. -/
def NS.findCmd (n : NS) (tok : String) : Option Bool :=
  dictFind n.cmds tok

/-- Modelled from the spec: `register_namespace(name, ns)` binds `name` to
`ns` in the parent's child-namespace map. -/
def NS.registerNamespace (parent : NS) (name : String) (child : NS) : NS :=
  NS.node (dictInsert parent.children name child) parent.cmds

/-- The walk of `attach_namespace` over the intermediate path segments,
rebuilding the tree along the way; `none` is the warned abort taken when a
segment is not a known child of the node reached so far. -/
def attachAux : NS → List String → String → NS → Option NS
  | cur, [], final, ns => some (cur.registerNamespace final ns)
  | cur, m :: rest, final, ns =>
      match cur.findChild m with
      | none => none
      | some sub =>
          (attachAux sub rest final ns).map
            (fun sub2 => NS.node (dictInsert cur.children m sub2) cur.cmds)

/-- `Context.attach_namespace(path, ns)` (repl.py lines 177-188): split the
path on `/`, walk `splitpath[1:-1]` from the root, warn and return the tree
unchanged when an intermediate segment is missing, else register `ns` under
the final segment in the resolved parent. -/
def attach_namespace (root : NS) (path : String) (ns : NS) : NS :=
  let sp := pySplitSlash path
  let mids := (sp.drop 1).dropLast
  let final := sp.getLastD ""
  (attachAux root mids final ns).getD root

/-- The pure walk through the intermediate segments (the loop of
`attach_namespace` without the registration), used to state when the attach
succeeds. -/
def walkToParent : NS → List String → Option NS
  | n, [] => some n
  | n, m :: rest =>
      match n.findChild m with
      | none => none
      | some sub => walkToParent sub rest

/-! ## Dispatch loop (`MainLoop.repl`, repl.py 259-315) -/

/-- `PathItem`: a navigation-stack frame pairing a display name with a
namespace. -/
structure PathItem where
  name : String
  ns : NS

/-- The names of `MainLoop.builtin_commands`. -/
def builtinNames : List String := ["exit", "setenv", "printenv"]

/-- A recorded invocation `run(context, tokens, kwargs)` of a command. -/
structure Call where
  name : String
  args : List String
  kwargs : List (String × String)

/-- Observable outcome of processing one input line: the navigation stack
afterwards, the command invocations in order, how often the output lock was
acquired and released, whether a command's `run` raised (caught at line
level), whether "Command not found" was printed, and whether the line
reached the tokenize-and-dispatch stage at all. -/
structure LineOut where
  path : List PathItem
  calls : List Call
  lockAcq : Nat
  lockRel : Nat
  cmdRaised : Bool
  notFound : Bool
  dispatched : Bool

/-- The `while tokens:` dispatch loop (repl.py lines 280-315).  Per token:
a builtin runs and breaks (no lock, no stack restore); else the child
namespaces of the frame on top of the stack are searched and a match pushes
a frame; then the commands of the (possibly new) top frame are searched and
a match acquires the output lock and runs the command — if `run` returns,
the lock is released, the stack is restored to `oldpath` and the loop
breaks, while an exception is caught, printed, and breaks the loop without
releasing the lock or restoring the stack; a token matching nothing prints
"Command not found" and breaks.  The stack is nonempty throughout (frame 0
is never popped), so the `path[-1]` default is never used. -/
def dispatchLoop (oldpath : List PathItem) (kwargs : List (String × String)) :
    List String → List PathItem → LineOut
  | [], path => ⟨path, [], 0, 0, false, false, true⟩
  | tok :: rest, path =>
      if builtinNames.contains tok then
        ⟨path, [⟨tok, rest, kwargs⟩], 0, 0, false, false, true⟩
      else
        let cwd := (path.getLastD ⟨"", NS.node [] []⟩).ns
        match cwd.findChild tok with
        | some child =>
            let path2 := path ++ [⟨tok, child⟩]
            match child.findCmd tok with
            | some raises =>
                if raises then ⟨path2, [⟨tok, rest, kwargs⟩], 1, 0, true, false, true⟩
                else ⟨oldpath, [⟨tok, rest, kwargs⟩], 1, 1, false, false, true⟩
            | none => dispatchLoop oldpath kwargs rest path2
        | none =>
            match cwd.findCmd tok with
            | some raises =>
                if raises then ⟨path, [⟨tok, rest, kwargs⟩], 1, 0, true, false, true⟩
                else ⟨oldpath, [⟨tok, rest, kwargs⟩], 1, 1, false, false, true⟩
            | none => ⟨path, [], 0, 0, false, true, true⟩

/-- One iteration of `MainLoop.repl` (repl.py lines 262-315) on an already
read line.  `rootItem` is the single frame of `self.root_path`.  The line
is stripped; an empty line is skipped; a leading `/` resets the stack to
the root frame and is removed; a line equal to `..` pops a frame and skips
the rest only when the stack is deeper than the root — at depth 1 it falls
through to tokenizing; otherwise the line is tokenized (an exception from
`tokenize` propagates out of the loop) and dispatched with `oldpath` saved
as the stack at that moment. -/
def replLine (rootItem : PathItem) (path : List PathItem) (rawLine : String) :
    Except TokErr LineOut :=
  let line := pyStrip rawLine
  if line.data = [] then
    Except.ok ⟨path, [], 0, 0, false, false, false⟩
  else
    let path := if line.data.headD ' ' = '/' then [rootItem] else path
    let line := if line.data.headD ' ' = '/' then String.mk (line.data.drop 1) else line
    if line = ".." ∧ path.length > 1 then
      Except.ok ⟨path.dropLast, [], 0, 0, false, false, false⟩
    else
      match tokenize line with
      | Except.error e => Except.error e
      | Except.ok (tokens, kwargs) => Except.ok (dispatchLoop path kwargs tokens path)

/-! ## Concrete fixtures used in the theorems -/

/-- A namespace exposing the single command `bar`, whose `run` returns
normally. -/
def barNS : NS := NS.node [] [("bar", false)]

/-- A root namespace with the single child namespace `foo` containing the
command `bar`. -/
def fooRoot : NS := NS.node [("foo", barNS)] []

/-- The root frame over `fooRoot`. -/
def fooRootItem : PathItem := ⟨"host", fooRoot⟩

/-- A root frame over an empty namespace. -/
def emptyRootItem : PathItem := ⟨"host", NS.node [] []⟩

/-- A root frame exposing one command `boom` whose `run` raises. -/
def boomRootItem : PathItem := ⟨"host", NS.node [] [("boom", true)]⟩

/-- A root frame exposing one command `status` whose `run` returns
normally. -/
def okRootItem : PathItem := ⟨"host", NS.node [] [("status", false)]⟩

/-! ## Helper lemmas -/

/-- Looking up a key just assigned in a Python dict returns the assigned
value, whether the assignment overwrote an existing binding or appended a
new one. -/
theorem dictFind_insert {α : Type} (m : List (String × α)) (k : String) (v : α) :
    dictFind (dictInsert m k v) k = some v := by
  induction m with
  | nil => simp [dictInsert, dictFind]
  | cons p ps ih =>
      by_cases hp : p.1 = k
      · simp [dictInsert, dictFind, List.any_cons, hp]
      · by_cases hs : ps.any (fun q => q.1 == k)
        · simp only [dictInsert, hs, if_true] at ih
          simp [dictInsert, dictFind, List.any_cons, hp, hs] at ih ⊢
          exact ih
        · simp only [dictInsert, hs] at ih
          simp [dictFind, dictInsert, List.any_cons, hp, hs] at ih ⊢
          exact ih

/-- When the walk through the intermediate segments hits a missing child,
the attach walk aborts. -/
theorem attachAux_of_walk_none (mids : List String) :
    ∀ (cur : NS) (final : String) (ns : NS),
      walkToParent cur mids = none → attachAux cur mids final ns = none := by
  induction mids with
  | nil => intro cur final ns h; simp [walkToParent] at h
  | cons m rest ih =>
      intro cur final ns h
      cases hc : cur.findChild m with
      | none => simp [attachAux, hc]
      | some sub =>
          simp only [walkToParent, hc] at h
          simp [attachAux, hc, ih sub final ns h]

/-- When the walk through the intermediate segments succeeds, the attach
walk succeeds and produces a tree in which walking the same segments
reaches a parent that binds the final segment to the attached namespace. -/
theorem attachAux_of_walk_some (mids : List String) :
    ∀ (cur : NS) (final : String) (ns parent : NS),
      walkToParent cur mids = some parent →
      ∃ t, attachAux cur mids final ns = some t ∧
        ∃ p', walkToParent t mids = some p' ∧ p'.findChild final = some ns := by
  induction mids with
  | nil =>
      intro cur final ns parent _
      refine ⟨cur.registerNamespace final ns, rfl, cur.registerNamespace final ns, rfl, ?_⟩
      simp [NS.registerNamespace, NS.findChild, NS.children, dictFind_insert]
  | cons m rest ih =>
      intro cur final ns parent h
      cases hc : cur.findChild m with
      | none => simp [walkToParent, hc] at h
      | some sub =>
          simp only [walkToParent, hc] at h
          obtain ⟨t, ht, p', hp', hfin⟩ := ih sub final ns parent h
          refine ⟨NS.node (dictInsert cur.children m t) cur.cmds, ?_, p', ?_, hfin⟩
          · simp [attachAux, hc, ht]
          · simp [walkToParent, NS.findChild, NS.children, dictFind_insert, hp']

/-- Ledger of the output lock over the dispatch loop: acquisitions equal
releases, plus one unmatched acquisition exactly when a command's `run`
raised (the `except` clause skips `output_lock.release()`). -/
theorem dispatchLoop_lock_ledger (tokens : List String) :
    ∀ (oldpath : List PathItem) (kwargs : List (String × String))
      (path : List PathItem),
      (dispatchLoop oldpath kwargs tokens path).lockAcq =
        (dispatchLoop oldpath kwargs tokens path).lockRel +
          (if (dispatchLoop oldpath kwargs tokens path).cmdRaised then 1 else 0) := by
  induction tokens with
  | nil => intro oldpath kwargs path; simp [dispatchLoop]
  | cons tok rest ih =>
      intro oldpath kwargs path
      by_cases hb : tok ∈ builtinNames
      · simp [dispatchLoop, hb]
      · simp only [dispatchLoop]
        cases hch : ((path.getLastD ⟨"", NS.node [] []⟩).ns).findChild tok with
        | some child =>
            cases hcm : child.findCmd tok with
            | some raises => cases raises <;> simp [hb, hch, hcm]
            | none => simp [hb, hch, hcm, ih]
        | none =>
            cases hcm : ((path.getLastD ⟨"", NS.node [] []⟩).ns).findCmd tok with
            | some raises => cases raises <;> simp [hb, hch, hcm]
            | none => simp [hb, hch, hcm]

/-! ## Claim theorems -/

/-- C1: the spec requires `set('timeout', '5')` to coerce the string to the
declared integer type and store it, so that `get('timeout')` returns 5.
The code coerces and validates but `Variable.set` never assigns
`self.value`, so after a successful `set('timeout', '5')` the store still
returns the default 10, not 5 — a setter that drops the assignment. -/
theorem set_timeout_value_not_stored :
    ((VariableStore.init "en").set "timeout" "5").map (fun s => s.get "timeout") =
      Except.ok (Except.ok (VarValue.vInt 10)) ∧
    VarValue.vInt 10 ≠ VarValue.vInt 5 := by
  exact ⟨rfl, by decide⟩

/-- C2: dispatching the line `foo bar x y=1` against a root namespace with
one child `foo` holding one command `bar` invokes `bar` exactly once with
positionals `["x"]` and keywords mapping `y` to `1`, acquires and releases
the output lock once, and restores the navigation stack to the
pre-dispatch root frame. -/
theorem dispatch_foo_bar_restores_root :
    replLine fooRootItem [fooRootItem] "foo bar x y=1" =
      Except.ok ⟨[fooRootItem], [⟨"bar", ["x"], [("y", "1")]⟩], 1, 1, false, false, true⟩ :=
  rfl

/-- C3 counterexample: the `=`-token rule does not hold for every token
containing `=` — on the token `b=`, whose value after the first `=` is
empty, the loop does not insert a key/value pair into the keyword mapping
but raises `IndexError` from `value[0]`. -/
theorem eq_token_with_empty_value_not_inserted :
    processTokens ["b="] [] [] = Except.error TokErr.indexError := rfl

/-- C3 amended: `tokenize('a b=c "d e"')` yields positionals `["a", "d e"]`
and the keyword mapping `b` to `c`; the token loop appends an unquoted
fully double-quoted token to the positionals, splits a token containing `=`
— provided the value after its first `=` is nonempty — into a key/value
pair (value unquoted when fully double-quoted) inserted into the keyword
dict, where inserting a duplicate key overwrites the earlier value, and
appends any other token verbatim (a token whose value after `=` is empty
instead raises `IndexError`, the C10 divergence). -/
theorem tokenize_rules :
    tokenize "a b=c \"d e\"" = Except.ok (["a", "d e"], [("b", "c")]) ∧
    (∀ (t : String) (rest args : List String) (kwargs : List (String × String)),
        t.data ≠ [] → isWrappedInQuotes t = true →
        processTokens (t :: rest) args kwargs =
          processTokens rest (pySlice1m1 t :: args) kwargs) ∧
    (∀ (t : String) (rest args : List String) (kwargs : List (String × String)),
        t.data ≠ [] → isWrappedInQuotes t = false →
        t.data.contains '=' = true → (pyPartitionEq t).2.data ≠ [] →
        processTokens (t :: rest) args kwargs =
          processTokens rest args
            (dictInsert kwargs (pyPartitionEq t).1
              (if isWrappedInQuotes (pyPartitionEq t).2 then pySlice1m1 (pyPartitionEq t).2
               else (pyPartitionEq t).2))) ∧
    (∀ (t : String) (rest args : List String) (kwargs : List (String × String)),
        t.data ≠ [] → isWrappedInQuotes t = false → t.data.contains '=' = false →
        processTokens (t :: rest) args kwargs = processTokens rest (t :: args) kwargs) ∧
    (∀ (kwargs : List (String × String)) (k v1 v2 : String),
        dictFind (dictInsert (dictInsert kwargs k v1) k v2) k = some v2) := by
  refine ⟨rfl, ?_, ?_, ?_, ?_⟩
  · intro t rest args kwargs hne hq
    simp [processTokens, hne, hq]
  · intro t rest args kwargs hne hq heq hval
    have heq' : '=' ∈ t.data := by simpa using heq
    simp [processTokens, hne, hq, heq', hval]
  · intro t rest args kwargs hne hq heq
    have heq' : '=' ∉ t.data := by simpa using heq
    simp [processTokens, hne, hq, heq']
  · intro kwargs k v1 v2
    exact dictFind_insert (dictInsert kwargs k v1) k v2

/-- Closed instances of the per-token rules of `tokenize_rules`: a
double-quoted token is unquoted into the positionals, a `key=value` token
lands in the keyword dict, and a plain token is appended verbatim. -/
theorem tokenize_rules_witness :
    processTokens ["\"x y\""] [] [] = processTokens [] [pySlice1m1 "\"x y\""] [] ∧
    processTokens ["b=c"] [] [] =
      processTokens [] [] (dictInsert [] (pyPartitionEq "b=c").1 (pyPartitionEq "b=c").2) ∧
    processTokens ["plain"] [] [] = processTokens [] ["plain"] [] :=
  ⟨tokenize_rules.2.1 "\"x y\"" [] [] [] (by decide) (by decide),
   tokenize_rules.2.2.1 "b=c" [] [] [] (by decide) (by decide) (by decide) (by decide),
   tokenize_rules.2.2.2.1 "plain" [] [] [] (by decide) (by decide) (by decide)⟩

/-- C4 counterexample: for a unit that does not expose `_init`, loading the
same path twice is not the same as loading it once — the unit is executed a
second time, because only units with `_init` are recorded in the plugin
map. -/
theorem load_twice_reexecutes_without_init :
    try_load_plugin (try_load_plugin ⟨[], 0, 0⟩ "p" ⟨false⟩) "p" ⟨false⟩ ≠
      try_load_plugin ⟨[], 0, 0⟩ "p" ⟨false⟩ := by
  decide

/-- C4 amended: loading the same path twice has the effect of loading it
once for units exposing `_init`; a unit without `_init` is never recorded,
so a second load re-executes it, though neither execution invokes `_init`
(and hence neither registers namespaces or commands). -/
theorem load_idempotent_iff_init :
    (∀ (st : PluginState) (path : String) (u : Plugin), u.hasInit = true →
        try_load_plugin (try_load_plugin st path u) path u = try_load_plugin st path u) ∧
    (∀ (st : PluginState) (path : String) (u : Plugin), u.hasInit = false →
        path ∉ st.plugins →
        try_load_plugin (try_load_plugin st path u) path u =
          { st with execs := st.execs + 2 } ∧
        (try_load_plugin (try_load_plugin st path u) path u).initCalls = st.initCalls ∧
        (try_load_plugin (try_load_plugin st path u) path u).plugins = st.plugins) := by
  constructor
  · intro st path u hi
    by_cases hc : path ∈ st.plugins
    · simp [try_load_plugin, hc]
    · have h2 : path ∈ st.plugins ++ [path] := by simp
      simp [try_load_plugin, hc, hi, h2]
  · intro st path u hi hc
    simp [try_load_plugin, hc, hi]

/-- Closed instances of `load_idempotent_iff_init`: a unit with `_init`
loads idempotently; one without `_init` is executed twice with no `_init`
calls. -/
theorem load_idempotent_iff_init_witness :
    try_load_plugin (try_load_plugin ⟨[], 0, 0⟩ "q" ⟨true⟩) "q" ⟨true⟩ =
      try_load_plugin ⟨[], 0, 0⟩ "q" ⟨true⟩ ∧
    try_load_plugin (try_load_plugin ⟨[], 0, 0⟩ "q" ⟨false⟩) "q" ⟨false⟩ =
      { plugins := [], execs := 2, initCalls := 0 } :=
  ⟨load_idempotent_iff_init.1 ⟨[], 0, 0⟩ "q" ⟨true⟩ rfl,
   (load_idempotent_iff_init.2 ⟨[], 0, 0⟩ "q" ⟨false⟩ rfl (by simp)).1⟩

/-- C5 counterexample: `read_config_file` does propagate to its caller —
the `except (IOError, ValueError)` clause only re-raises, so an unreadable
file raises `IOError` and a malformed one raises `ValueError` instead of
falling back to defaults. -/
theorem read_config_failure_propagates :
    read_config_file [] ConfigFile.openFail = Except.error CfgErr.ioError ∧
    read_config_file [] ConfigFile.parseFail = Except.error CfgErr.valueError :=
  ⟨rfl, rfl⟩

/-- C5 amended: an open failure re-raises `IOError` and a parse failure
re-raises `ValueError` to the caller (the plugin-directory list is not
modified, the call aborting before the `+=`); only a document that parses
but lacks the `cli` key, lacks `plugin-dirs`, or holds a non-list there is
treated non-fatally, leaving the list unchanged, while a well-formed list
is appended. -/
theorem read_config_file_behaviour :
    (∀ dirs, read_config_file dirs ConfigFile.openFail = Except.error CfgErr.ioError) ∧
    (∀ dirs, read_config_file dirs ConfigFile.parseFail = Except.error CfgErr.valueError) ∧
    (∀ dirs, read_config_file dirs (ConfigFile.parsed ⟨none⟩) = Except.ok dirs) ∧
    (∀ dirs, read_config_file dirs (ConfigFile.parsed ⟨some none⟩) = Except.ok dirs) ∧
    (∀ dirs, read_config_file dirs (ConfigFile.parsed ⟨some (some CfgEntry.notList)⟩) =
        Except.ok dirs) ∧
    (∀ dirs ds, read_config_file dirs (ConfigFile.parsed ⟨some (some (CfgEntry.listDirs ds))⟩) =
        Except.ok (dirs ++ ds)) :=
  ⟨fun _ => rfl, fun _ => rfl, fun _ => rfl, fun _ => rfl, fun _ => rfl, fun _ _ => rfl⟩

/-- C6: when the walk of `attach_namespace` through the intermediate path
segments meets a segment that is not a known child, the attach returns the
tree unchanged (the warned no-op; being a total function it cannot raise);
when every intermediate segment resolves, the attach succeeds and the
resolved parent of the resulting tree binds the final segment to the
attached namespace. -/
theorem attach_namespace_missing_then_present :
    (∀ (root : NS) (path : String) (ns : NS),
        walkToParent root (((pySplitSlash path).drop 1).dropLast) = none →
        attach_namespace root path ns = root) ∧
    (∀ (root : NS) (path : String) (ns parent : NS),
        walkToParent root (((pySplitSlash path).drop 1).dropLast) = some parent →
        ∃ p', walkToParent (attach_namespace root path ns)
            (((pySplitSlash path).drop 1).dropLast) = some p' ∧
          p'.findChild ((pySplitSlash path).getLastD "") = some ns) := by
  constructor
  · intro root path ns h
    unfold attach_namespace
    simp only
    rw [attachAux_of_walk_none _ _ _ _ h]
    rfl
  · intro root path ns parent h
    obtain ⟨t, ht, p', hp', hfin⟩ :=
      attachAux_of_walk_some (((pySplitSlash path).drop 1).dropLast) root
        ((pySplitSlash path).getLastD "") ns parent h
    refine ⟨p', ?_, hfin⟩
    unfold attach_namespace
    simp only
    rw [ht]
    simpa using hp'

/-- Closed instances of `attach_namespace_missing_then_present`: attaching
`/a/b` into an empty root is a no-op, and after `/a` exists the same attach
registers the namespace under `b` inside `a`. -/
theorem attach_namespace_missing_then_present_witness :
    attach_namespace (NS.node [] []) "/a/b" (NS.node [] []) = NS.node [] [] ∧
    (∃ p', walkToParent
        (attach_namespace (attach_namespace (NS.node [] []) "/a" (NS.node [] []))
          "/a/b" (NS.node [] []))
        (((pySplitSlash "/a/b").drop 1).dropLast) = some p' ∧
      p'.findChild ((pySplitSlash "/a/b").getLastD "") = some (NS.node [] [])) :=
  ⟨attach_namespace_missing_then_present.1 (NS.node [] []) "/a/b" (NS.node [] []) rfl,
   attach_namespace_missing_then_present.2
     (attach_namespace (NS.node [] []) "/a" (NS.node [] [])) "/a/b" (NS.node [] [])
     (NS.node [] []) rfl⟩

/-- C7: on any store whose `timeout` variable is declared with integer
type, `set('timeout', 'abc')` fails with the coercion `ValueError`; on any
store whose `output-format` variable is declared a string restricted to
the choices `ascii`/`json`, `set('output-format', 'xml')` fails with the
choice `ValueError`.  In both cases `set` returns no new store, so the
caller's store — and with it the prior value — is unchanged. -/
theorem variable_store_set_rejects_invalid :
    (∀ (st : VariableStore) (v : Variable),
        st.find "timeout" = some v → v.type = VarType.int →
        st.set "timeout" "abc" = Except.error StoreErr.valueErrorInt) ∧
    (∀ (st : VariableStore) (v : Variable),
        st.find "output-format" = some v → v.type = VarType.str →
        v.choices = some [VarValue.vStr "ascii", VarValue.vStr "json"] →
        st.set "output-format" "xml" = Except.error StoreErr.valueErrorChoice) := by
  constructor
  · intro st v hf ht
    have hpy : pyInt "abc" = none := rfl
    simp [VariableStore.set, hf, Variable.set, ht, hpy]
  · intro st v hf ht hch
    have hmem : VarValue.vStr "xml" ∉ [VarValue.vStr "ascii", VarValue.vStr "json"] := by
      decide
    simp [VariableStore.set, hf, Variable.set, ht, hch, hmem]

/-- Closed instances of `variable_store_set_rejects_invalid` on the store
built by `VariableStore.__init__`. -/
theorem variable_store_set_rejects_invalid_witness :
    (VariableStore.init "en").set "timeout" "abc" = Except.error StoreErr.valueErrorInt ∧
    (VariableStore.init "en").set "output-format" "xml" =
      Except.error StoreErr.valueErrorChoice :=
  ⟨variable_store_set_rejects_invalid.1 (VariableStore.init "en")
      ⟨VarValue.vInt 10, VarType.int, none, VarValue.vInt 10⟩ rfl rfl,
   variable_store_set_rejects_invalid.2 (VariableStore.init "en")
      ⟨VarValue.vStr "ascii", VarType.str,
        some [VarValue.vStr "ascii", VarValue.vStr "json"], VarValue.vStr "ascii"⟩ rfl rfl rfl⟩

/-- C8 counterexample: at root depth (stack of length 1) the line `..` is
not skipped — the `continue` sits inside the depth check, so the line falls
through to tokenizing and dispatch, where `..` matches nothing and
"Command not found" is reported. -/
theorem parent_anchor_at_root_falls_through :
    (replLine emptyRootItem [emptyRootItem] "..").map
        (fun o => (o.dispatched, o.notFound)) =
      Except.ok (true, true) := rfl

/-- C8 amended: at root depth `..` leaves the stack unchanged but is
dispatched as an ordinary token (printing "Command not found" when the
root exposes no namespace or command named `..`); at depth greater than 1
it pops exactly one frame and the line is processed no further. -/
theorem parent_anchor_behaviour :
    (∀ r : PathItem, r.ns.findChild ".." = none → r.ns.findCmd ".." = none →
        replLine r [r] ".." = Except.ok ⟨[r], [], 0, 0, false, true, true⟩) ∧
    (∀ (r : PathItem) (p : List PathItem), p.length > 1 →
        replLine r p ".." = Except.ok ⟨p.dropLast, [], 0, 0, false, false, false⟩) := by
  constructor
  · intro r hc hk
    have h1 : replLine r [r] ".." = Except.ok (dispatchLoop [r] [] [".."] [r]) := rfl
    rw [h1]
    simp only [dispatchLoop]
    have hb : ¬ (".." ∈ builtinNames) := by decide
    simp [hb, hc, hk]
  · intro r p hlen
    have h1 : replLine r p ".." =
        if (".." : String) = ".." ∧ p.length > 1 then
          Except.ok ⟨p.dropLast, [], 0, 0, false, false, false⟩
        else Except.ok (dispatchLoop p [] [".."] p) := rfl
    rw [h1, if_pos ⟨rfl, hlen⟩]

/-- Closed instances of `parent_anchor_behaviour`: `..` over an empty root
at depth 1 dispatches to "Command not found" with the stack intact, and at
depth 2 pops exactly one frame. -/
theorem parent_anchor_behaviour_witness :
    replLine emptyRootItem [emptyRootItem] ".." =
      Except.ok ⟨[emptyRootItem], [], 0, 0, false, true, true⟩ ∧
    replLine emptyRootItem [emptyRootItem, emptyRootItem] ".." =
      Except.ok ⟨[emptyRootItem], [], 0, 0, false, false, false⟩ :=
  ⟨parent_anchor_behaviour.1 emptyRootItem rfl rfl,
   parent_anchor_behaviour.2 emptyRootItem [emptyRootItem, emptyRootItem] (by decide)⟩

/-- C9 counterexample: when the matched command's `run` raises, the
`except` clause breaks out of the loop without executing
`output_lock.release()`, so the line ends with one acquisition and no
release — the lock is left held. -/
theorem output_lock_left_held_on_raise :
    (replLine boomRootItem [boomRootItem] "boom").map
        (fun o => (o.lockAcq, o.lockRel)) =
      Except.ok (1, 0) := rfl

/-- C9 amended: over any dispatched line, acquisitions of the output lock
equal releases plus one exactly when a command's `run` raised; only a line
whose command raises leaves the lock held. -/
theorem output_lock_ledger :
    ∀ (r : PathItem) (p : List PathItem) (line : String) (o : LineOut),
      replLine r p line = Except.ok o →
      o.lockAcq = o.lockRel + (if o.cmdRaised then 1 else 0) := by
  intro r p line o h
  simp only [replLine] at h
  repeat' split at h
  any_goals exact Except.noConfusion h
  all_goals obtain rfl := Except.ok.inj h
  any_goals exact dispatchLoop_lock_ledger _ _ _ _
  all_goals simp

/-- Closed instance of `output_lock_ledger` on a command that returns
normally: the one acquisition is matched by the one release. -/
theorem output_lock_ledger_witness :
    LineOut.lockAcq ⟨[okRootItem], [⟨"status", [], []⟩], 1, 1, false, false, true⟩ =
      LineOut.lockRel ⟨[okRootItem], [⟨"status", [], []⟩], 1, 1, false, false, true⟩ +
        (if LineOut.cmdRaised ⟨[okRootItem], [⟨"status", [], []⟩], 1, 1, false, false, true⟩
         then 1 else 0) :=
  output_lock_ledger okRootItem [okRootItem] "status"
    ⟨[okRootItem], [⟨"status", [], []⟩], 1, 1, false, false, true⟩ rfl

/-- C10 counterexample: `tokenize` is not total on word-split lines — on
the line `a=`, whose only token has an empty value after its `=`, the
check `value[0]` indexes an empty string and raises `IndexError`. -/
theorem tokenize_raises_on_empty_value :
    tokenize "a=" = Except.error TokErr.indexError := rfl

/-- The token loop returns a pair whenever every token is well-behaved. -/
theorem processTokens_ok (toks : List String) :
    ∀ (args : List String) (kwargs : List (String × String)),
      goodToks toks →
      ∃ res, processTokens toks args kwargs = Except.ok res := by
  induction toks with
  | nil => intro args kwargs _; exact ⟨_, rfl⟩
  | cons t rest ih =>
      intro args kwargs hgood
      obtain ⟨hne, hval⟩ := hgood t (List.mem_cons_self t rest)
      have hrest : goodToks rest := fun u hu => hgood u (List.mem_cons_of_mem t hu)
      by_cases hq : isWrappedInQuotes t
      · obtain ⟨res, hres⟩ := ih (pySlice1m1 t :: args) kwargs hrest
        exact ⟨res, by simp [processTokens, hne, hq, hres]⟩
      · by_cases he : t.data.contains '='
        · have hv := hval (by simpa using hq) he
          obtain ⟨res, hres⟩ := ih args
            (dictInsert kwargs (pyPartitionEq t).1
              (if isWrappedInQuotes (pyPartitionEq t).2 then pySlice1m1 (pyPartitionEq t).2
               else (pyPartitionEq t).2)) hrest
          have he' : '=' ∈ t.data := by simpa using he
          exact ⟨res, by simp [processTokens, hne, hq, he', hv, hres]⟩
        · obtain ⟨res, hres⟩ := ih (t :: args) kwargs hrest
          have he' : '=' ∉ t.data := by simpa using he
          exact ⟨res, by simp [processTokens, hne, hq, he', hres]⟩

/-- C10 amended: `tokenize` returns a positional/keyword pair for every
line it word-splits in which each token with an (unquoted) `=` has a
nonempty value after the first `=`; a token of the form `key=` instead
raises `IndexError`. -/
theorem tokenize_total_on_nonempty_values :
    ∀ (line : String) (toks : List String),
      shlexSplit line = some toks → goodToks toks →
      ∃ res, tokenize line = Except.ok res := by
  intro line toks hsplit hgood
  unfold tokenize
  rw [hsplit]
  exact processTokens_ok toks [] [] hgood

/-- Closed instance of `tokenize_total_on_nonempty_values` on the line
`a=1 b`. -/
theorem tokenize_total_on_nonempty_values_witness :
    ∃ res, tokenize "a=1 b" = Except.ok res :=
  tokenize_total_on_nonempty_values "a=1 b" ["a=1", "b"] rfl (by decide)

end FreenasCli
